import Mathlib

/-!
Verification of `src/component/draggable-mask.tsx` (diip3sh/draggable-mask).

The component is a React UI: a looping background video revealed through
draggable mask windows, each rendering a clipped crop of the video on its own
canvas, plus a cursor-following HUD label.  We embed the component shallowly:

* numbers are ℚ (JS numbers on the inputs at issue behave as exact rationals);
* the pure geometry of `drawClipped` becomes a pure function;
* the React state (`maskStates`, `draggingState`, `isHovering`) together with
  the DOM elements held in refs (`globalHudRef`, `videoRef`, `maskRefs`,
  `canvasRefs`, `coordsRefs`) becomes an explicit `ComponentState`, and each
  event handler becomes a state-transition function;
* DOM layout is modelled only as far as the code observes it: an absolutely
  positioned mask element with style `left`/`top` and a
  `translate3d(tx, ty, 0)` transform has bounding rectangle
  `(left + tx, top + ty, w, h)` (offset parent at the viewport origin, which
  is the component's own layout: the masks live directly in a full-screen
  `<main>`).
-/

/-- State of one mask, as in the `MaskState` interface: top-left position and
size in viewport pixel coordinates. -/
structure MaskState where
  x : ℚ
  y : ℚ
  w : ℚ
  h : ℚ
deriving DecidableEq, Repr

/-- The drag state, as in the `draggingState` React state: the index of the
mask being dragged (or `none`), and the pointer-to-origin offset captured at
drag start. -/
structure DraggingState where
  index : Option ℕ
  offsetX : ℚ
  offsetY : ℚ
deriving DecidableEq, Repr

/-- The placement of the scaled video inside the viewport computed by
`drawClipped` (its local variables `dw`, `dh`, `dx`, `dy`). -/
structure Placement where
  dw : ℚ
  dh : ℚ
  dx : ℚ
  dy : ℚ
deriving DecidableEq, Repr

/-- A source-space rectangle: the first four arguments `drawClipped` passes to
`ctx.drawImage`. -/
structure SrcRect where
  sx : ℚ
  sy : ℚ
  sw : ℚ
  sh : ℚ
deriving DecidableEq, Repr

/-- The placement branch of `drawClipped` (lines 43–58): compare the video
aspect ratio with the window aspect ratio and letterbox the other axis,
centering it. -/
def coverPlacement (videoW videoH winW winH : ℚ) : Placement :=
  let videoAspect := videoW / videoH
  let windowAspect := winW / winH
  if videoAspect > windowAspect then
    let dh := winH
    let dw := dh * videoAspect
    { dw := dw, dh := dh, dx := (winW - dw) / 2, dy := 0 }
  else
    let dw := winW
    let dh := dw / videoAspect
    { dw := dw, dh := dh, dx := 0, dy := (winH - dh) / 2 }

/-- The geometry of `drawClipped` (lines 43–73): the source rectangle handed
to `ctx.drawImage`, i.e. the image of the target rectangle under the inverse
of the cover placement. -/
def sourceRect (videoW videoH winW winH : ℚ) (rect : MaskState) : SrcRect :=
  let p := coverPlacement videoW videoH winW winH
  let scaleX := videoW / p.dw
  let scaleY := videoH / p.dh
  { sx := (rect.x - p.dx) * scaleX
    sy := (rect.y - p.dy) * scaleY
    sw := rect.w * scaleX
    sh := rect.h * scaleY }

/-- The cover placement as the spec words it: scale uniformly by
`max (winW / videoW) (winH / videoH)` and center both axes. -/
def coverPlacementSpec (videoW videoH winW winH : ℚ) : Placement :=
  let s := max (winW / videoW) (winH / videoH)
  let dw := videoW * s
  let dh := videoH * s
  { dw := dw, dh := dh, dx := (winW - dw) / 2, dy := (winH - dh) / 2 }

/-- The source rectangle as the spec words it:
`sx = (x − dx)·videoW/dw`, `sy = (y − dy)·videoH/dh`, `sw = w·videoW/dw`,
`sh = h·videoH/dh`, with `(dx, dy, dw, dh)` the centered cover placement. -/
def sourceRectSpec (videoW videoH winW winH : ℚ) (rect : MaskState) : SrcRect :=
  let p := coverPlacementSpec videoW videoH winW winH
  { sx := (rect.x - p.dx) * videoW / p.dw
    sy := (rect.y - p.dy) * videoH / p.dh
    sw := rect.w * videoW / p.dw
    sh := rect.h * videoH / p.dh }

/-- A mask button element, as far as the component observes and mutates it:
its style (`left`, `top`, the `translate3d` offsets `tx`, `ty`, the cursor)
and its layout size.  Its bounding rectangle is `(left + tx, top + ty, w, h)`
(the masks are absolutely positioned in a full-screen container anchored at
the viewport origin). -/
structure MaskElem where
  left : ℚ
  top : ℚ
  tx : ℚ
  ty : ℚ
  w : ℚ
  h : ℚ
  cursor : String
deriving DecidableEq, Repr

/-- The global HUD element (`globalHudRef`): its text content and the
`translate3d` offsets of its transform. -/
structure HudElem where
  text : String
  tx : ℚ
  ty : ℚ
deriving DecidableEq, Repr

/-- A video element: its native pixel dimensions. -/
structure VideoElem where
  videoWidth : ℚ
  videoHeight : ℚ
deriving DecidableEq, Repr

/-- A canvas element: its pixel-buffer size and whether `getContext "2d"`
yields a context. -/
structure CanvasElem where
  width : ℚ
  height : ℚ
  hasCtx : Bool
deriving DecidableEq, Repr

/-- The component's whole mutable world: the React state (`maskStates`,
`draggingState`, `isHovering`) and the DOM elements reachable from the refs.
A `none` entry models a null ref / absent element; `maskStates` entries are
`Option` because the JS array may have holes at indices whose mask ref was
null during `initMasks`.  `winW`/`winH` are `window.innerWidth/innerHeight`;
`coordsEls` holds each coordinate label's text content. -/
structure ComponentState where
  hud : Option HudElem
  video : Option VideoElem
  masks : List (Option MaskElem)
  canvases : List (Option CanvasElem)
  coordsEls : List (Option String)
  isHovering : Bool
  maskStates : List (Option MaskState)
  draggingState : DraggingState
  winW : ℚ
  winH : ℚ
deriving DecidableEq, Repr

/-- `maskStates[index]` as the code reads it: `none` both when the index is
out of range and when the array has a hole there. -/
def getMaskState (st : ComponentState) (i : ℕ) : Option MaskState :=
  (st.maskStates[i]?).join

/-- `maskRefs.current[index]`, `none` when the ref is null or out of range. -/
def getMaskElem (st : ComponentState) (i : ℕ) : Option MaskElem :=
  (st.masks[i]?).join

/-- Write new `x`/`y` into `maskStates[i]`, keeping `w`/`h`: the update
`newStates[index] = { ...newStates[index], x, y }` of `handleMouseMove`
(lines 191–196).  (If the entry is a hole the JS spread would build a
degenerate object with undefined `w`/`h`; that point is unreachable because
`handleMouseDown` only starts a drag when `maskStates[index]` exists, and we
model it as a no-op.) -/
def setMaskXY (states : List (Option MaskState)) (i : ℕ) (x y : ℚ) :
    List (Option MaskState) :=
  match states[i]? with
  | some (some s) => states.set i (some { s with x := x, y := y })
  | _ => states

/-- `handleMouseDown` (lines 172–184): if the mask ref and its state both
exist, record the drag index and the pointer-to-origin offset, and set the
grabbing cursor. -/
def handleMouseDown (cx cy : ℚ) (index : ℕ) (st : ComponentState) :
    ComponentState :=
  match getMaskElem st index, getMaskState st index with
  | some m, some s =>
      { st with
        draggingState :=
          { index := some index, offsetX := cx - s.x, offsetY := cy - s.y }
        masks := st.masks.set index (some { m with cursor := "grabbing" }) }
  | _, _ => st

/-- `handleMouseMove` on a mask (lines 186–203): only when the moving mask's
index is the active drag index, set that mask's position to
`pointer − offset` in the state and mirror it into the element's transform. -/
def handleMouseMove (cx cy : ℚ) (index : ℕ) (st : ComponentState) :
    ComponentState :=
  if st.draggingState.index = some index then
    match getMaskElem st index with
    | some m =>
        { st with
          maskStates :=
            setMaskXY st.maskStates index (cx - st.draggingState.offsetX)
              (cy - st.draggingState.offsetY)
          masks :=
            st.masks.set index
              (some
                { m with
                  tx := cx - st.draggingState.offsetX
                  ty := cy - st.draggingState.offsetY }) }
    | none =>
        { st with
          maskStates :=
            setMaskXY st.maskStates index (cx - st.draggingState.offsetX)
              (cy - st.draggingState.offsetY) }
  else
    st

/-- `handleMouseUp` (lines 205–213): if a drag is active, restore that mask's
cursor and clear the dragging state. -/
def handleMouseUp (st : ComponentState) : ComponentState :=
  match st.draggingState.index with
  | some i =>
      match getMaskElem st i with
      | some m =>
          { st with
            masks := st.masks.set i (some { m with cursor := "grab" })
            draggingState := { index := none, offsetX := 0, offsetY := 0 } }
      | none =>
          { st with draggingState := { index := none, offsetX := 0, offsetY := 0 } }
  | none => st

/-- `handleMouseEnter` (lines 215–220): raise the hover flag and, when the
HUD element exists, set its text to the literal GRAB. -/
def handleMouseEnter (st : ComponentState) : ComponentState :=
  match st.hud with
  | some hudEl =>
      { st with isHovering := true, hud := some { hudEl with text := "GRAB" } }
  | none => { st with isHovering := true }

/-- `handleMouseLeave` (lines 222–227): drop the hover flag and, when the
HUD element exists, set its text to the literal HOVER. -/
def handleMouseLeave (st : ComponentState) : ComponentState :=
  match st.hud with
  | some hudEl =>
      { st with isHovering := false, hud := some { hudEl with text := "HOVER" } }
  | none => { st with isHovering := false }

/-- The HUD coordinate text written by the document-level mousemove handler
(line 133). -/
def coordTextQ (x y : ℚ) : String :=
  "X: " ++ toString x ++ "px Y: " ++ toString y ++ "px"

/-- The document-level mousemove handler (lines 131–139): while not hovering
overwrite the HUD text with the live pointer coordinates, and always move the
HUD transform next to the pointer. -/
def handleGlobalMouseMove (cx cy : ℚ) (st : ComponentState) : ComponentState :=
  match st.hud with
  | none => st
  | some hudEl =>
      if st.isHovering then
        { st with hud := some { hudEl with tx := cx + 2, ty := cy + 2 } }
      else
        { st with
          hud := some { text := coordTextQ cx cy, tx := cx + 2, ty := cy + 2 } }

/-- `getBoundingClientRect` on a mask element, under the layout model stated
on `MaskElem`: `(left + tx, top + ty, w, h)`. -/
def boundingRect (m : MaskElem) : MaskState :=
  { x := m.left + m.tx, y := m.top + m.ty, w := m.w, h := m.h }

/-- The re-anchoring `initMasks` performs on each mask element
(lines 90–92): `left = 0`, `top = 0`,
`transform = translate3d(r.left, r.top, 0)` for `r` its bounding rect. -/
def reAnchor (m : MaskElem) : MaskElem :=
  let r := boundingRect m
  { m with left := 0, top := 0, tx := r.x, ty := r.y }

/-- `initMasks` (lines 78–96): measure every present mask element's bounding
rectangle into a fresh `maskStates` array (absent refs leave holes), and
re-anchor each element. -/
def initMasks (st : ComponentState) : ComponentState :=
  { st with
    maskStates := st.masks.map (Option.map boundingRect)
    masks := st.masks.map (Option.map reAnchor) }

/-- `initCanvases` (lines 98–106): size each present canvas's pixel buffer to
its mask's recorded width and height. -/
def initCanvases (st : ComponentState) : ComponentState :=
  { st with
    canvases :=
      (List.range st.canvases.length).map (fun i =>
        match getMaskState st i, (st.canvases[i]?).join with
        | some s, some c => some { c with width := s.w, height := s.h }
        | _, _ => (st.canvases[i]?).join) }

/-- The `playing`-event handler (lines 152–156), up to its state effects:
`initMasks` then `initCanvases` (the `draw` call only reads state). -/
def handlePlaying (st : ComponentState) : ComponentState :=
  initCanvases (initMasks st)

/-- JS `Math.round`: round half toward positive infinity. -/
def jsRound (q : ℚ) : ℤ := ⌊q + 1 / 2⌋

/-- The text `updateCoords` writes (line 31). -/
def coordTextRound (x y : ℚ) : String :=
  "X: " ++ toString (jsRound x) ++ "px Y: " ++ toString (jsRound y) ++ "px"

/-- `updateCoords` (lines 26–35) as an observation: the text written to mask
`i`'s coordinate label, or `none` when the label element or the mask state is
missing and nothing is written. -/
def updateCoordsText (st : ComponentState) (i : ℕ) : Option String :=
  match (st.coordsEls[i]?).join, getMaskState st i with
  | some _, some s => some (coordTextRound s.x s.y)
  | _, _ => none

/-- What one iteration of the `maskStates.forEach` in `draw`
(lines 114–124) does to mask `i`: `none` when the iteration is skipped
(hole in `maskStates`, missing canvas, or missing 2D context), otherwise the
`drawImage` geometry and the coordinate-label update. -/
structure DrawOp where
  src : SrcRect
  destW : ℚ
  destH : ℚ
  coordsText : Option String
deriving DecidableEq, Repr

/-- The observable outcome of one call to `draw` (lines 108–127): the
per-mask work and whether `requestAnimationFrame` was called again. -/
structure FrameResult where
  ops : List (Option DrawOp)
  rescheduled : Bool
deriving DecidableEq, Repr

/-- One iteration of the loop body of `draw` for mask `i`. -/
def perMaskDraw (st : ComponentState) (v : VideoElem) (i : ℕ) : Option DrawOp :=
  match getMaskState st i with
  | none => none
  | some s =>
    match (st.canvases[i]?).join with
    | none => none
    | some c =>
      if c.hasCtx then
        some
          { src := sourceRect v.videoWidth v.videoHeight st.winW st.winH s
            destW := s.w
            destH := s.h
            coordsText := updateCoordsText st i }
      else none

/-- `draw` (lines 108–127): a missing video returns before drawing anything
and before rescheduling; otherwise every mask index gets its per-mask
iteration and the frame is rescheduled. -/
def draw (st : ComponentState) : FrameResult :=
  match st.video with
  | none => { ops := [], rescheduled := false }
  | some v =>
      { ops := (List.range st.maskStates.length).map (perMaskDraw st v)
        rescheduled := true }

/-- The coordinate label text of mask `i` after one frame of `draw`:
overwritten exactly when that mask's iteration ran and the label exists. -/
def frameCoordsEl (st : ComponentState) (i : ℕ) : Option String :=
  match getMaskState st i, (st.canvases[i]?).join with
  | some s, some c =>
      if c.hasCtx then
        match (st.coordsEls[i]?).join with
        | some _ => some (coordTextRound s.x s.y)
        | none => none
      else (st.coordsEls[i]?).join
  | _, _ => (st.coordsEls[i]?).join

/-- The state effect of one frame of `draw`: only coordinate-label texts
change (canvas pixels are outside the model). -/
def applyFrame (st : ComponentState) : ComponentState :=
  match st.video with
  | none => st
  | some _ =>
      { st with
        coordsEls := (List.range st.coordsEls.length).map (frameCoordsEl st) }

/-- The events the component reacts to after initialization. -/
inductive Event where
  | down (cx cy : ℚ) (i : ℕ)
  | move (cx cy : ℚ) (i : ℕ)
  | up
  | enter
  | leave
  | globalMove (cx cy : ℚ)
  | frame
deriving DecidableEq, Repr

/-- Dispatch one event to its handler. -/
def step (st : ComponentState) : Event → ComponentState
  | .down cx cy i => handleMouseDown cx cy i st
  | .move cx cy i => handleMouseMove cx cy i st
  | .up => handleMouseUp st
  | .enter => handleMouseEnter st
  | .leave => handleMouseLeave st
  | .globalMove cx cy => handleGlobalMouseMove cx cy st
  | .frame => applyFrame st

/-- Run a sequence of events. -/
def run (st : ComponentState) (evs : List Event) : ComponentState :=
  evs.foldl step st

/-- The HUD invariant behind the GRAB/HOVER labels: whenever the hover flag
is up and the HUD element exists, its text is the literal GRAB. -/
def hudInv (st : ComponentState) : Prop :=
  ∀ hudEl, st.hud = some hudEl → st.isHovering = true → hudEl.text = "GRAB"

/-- The recorded width of mask `i`'s state. -/
def maskW (st : ComponentState) (i : ℕ) : Option ℚ :=
  (getMaskState st i).map MaskState.w

/-- The recorded height of mask `i`'s state. -/
def maskH (st : ComponentState) (i : ℕ) : Option ℚ :=
  (getMaskState st i).map MaskState.h

/-- A concrete mask element at viewport position (5, 10), 120×60. -/
def sampleMask0 : MaskElem :=
  { left := 0, top := 0, tx := 5, ty := 10, w := 120, h := 60, cursor := "grab" }

/-- A concrete mask element at viewport position (40, 45), 200×100. -/
def sampleMask2 : MaskElem :=
  { left := 0, top := 0, tx := 40, ty := 45, w := 200, h := 100, cursor := "grab" }

/-- A concrete component state with three mask slots (the middle ref null),
matching the spec's pointer-down scenario at mask index 2. -/
def sampleState : ComponentState :=
  { hud := some { text := "HOVER", tx := 0, ty := 0 }
    video := some { videoWidth := 1920, videoHeight := 1080 }
    masks := [some sampleMask0, none, some sampleMask2]
    canvases := [some { width := 120, height := 60, hasCtx := true }, none,
      some { width := 200, height := 100, hasCtx := true }]
    coordsEls := [some "", none, some ""]
    isHovering := false
    maskStates := [some { x := 5, y := 10, w := 120, h := 60 }, none,
      some { x := 40, y := 45, w := 200, h := 100 }]
    draggingState := { index := none, offsetX := 0, offsetY := 0 }
    winW := 1280
    winH := 720 }

/-- `sampleState` with the hover flag up and the GRAB label showing. -/
def sampleHoverState : ComponentState :=
  { sampleState with
    isHovering := true
    hud := some { text := "GRAB", tx := 0, ty := 0 } }

/-- `sampleState` with mask 0's canvas removed. -/
def sampleStateNoCanvas : ComponentState :=
  { sampleState with
    canvases := [none, none, some { width := 200, height := 100, hasCtx := true }] }

/-- `sampleState` with the video ref null. -/
def sampleStateNoVideo : ComponentState :=
  { sampleState with video := none }

theorem coverPlacement_eq_spec (videoW videoH winW winH : ℚ)
    (hvw : 0 < videoW) (hvh : 0 < videoH) (_hww : 0 < winW) (hwh : 0 < winH) :
    coverPlacement videoW videoH winW winH =
      coverPlacementSpec videoW videoH winW winH := by
  unfold coverPlacement coverPlacementSpec
  by_cases hc : videoW / videoH > winW / winH
  · have hmax : max (winW / videoW) (winH / videoH) = winH / videoH := by
      apply max_eq_right
      rw [div_le_div_iff₀ hvw hvh]
      have h1 : winW * videoH < videoW * winH := (div_lt_div_iff₀ hwh hvh).mp hc
      linarith
    simp only [hc, if_true, hmax, Placement.mk.injEq]
    refine ⟨by field_simp; ring, by field_simp, by field_simp; ring, by field_simp⟩
  · have hle : videoW / videoH ≤ winW / winH := le_of_not_lt hc
    have hmax : max (winW / videoW) (winH / videoH) = winW / videoW := by
      apply max_eq_left
      rw [div_le_div_iff₀ hvh hvw]
      have h1 : videoW * winH ≤ winW * videoH := (div_le_div_iff₀ hvh hwh).mp hle
      linarith
    simp only [hc, if_false, hmax, Placement.mk.injEq]
    refine ⟨by field_simp, by field_simp; ring, by field_simp, by field_simp; ring⟩

/-- Claim C2: for all positive video and viewport dimensions and any target
rectangle, `drawClipped`'s geometry is exactly the object-fit:cover mapping:
scale by `max (winW/videoW, winH/videoH)`, center the overflow axis, and pull
the target rectangle back through that transform. -/
theorem sourceRect_eq_spec (videoW videoH winW winH : ℚ) (rect : MaskState)
    (hvw : 0 < videoW) (hvh : 0 < videoH) (hww : 0 < winW) (hwh : 0 < winH) :
    sourceRect videoW videoH winW winH rect =
      sourceRectSpec videoW videoH winW winH rect := by
  unfold sourceRect sourceRectSpec
  rw [coverPlacement_eq_spec videoW videoH winW winH hvw hvh hww hwh]
  simp only [SrcRect.mk.injEq]
  refine ⟨by ring, by ring, by ring, by ring⟩

/-- Witness for C2 at video 1920×1080, viewport 1000×900, rect (10,20,30,40). -/
theorem sourceRect_eq_spec_witness :
    (0:ℚ) < 1920 ∧ (0:ℚ) < 1080 ∧ (0:ℚ) < 1000 ∧ (0:ℚ) < 900 ∧
      sourceRect 1920 1080 1000 900 ⟨10, 20, 30, 40⟩ =
        sourceRectSpec 1920 1080 1000 900 ⟨10, 20, 30, 40⟩ :=
  ⟨by norm_num, by norm_num, by norm_num, by norm_num,
    sourceRect_eq_spec 1920 1080 1000 900 ⟨10, 20, 30, 40⟩
      (by norm_num) (by norm_num) (by norm_num) (by norm_num)⟩

/-- Claim C1: with video 1920×1080 and viewport 1280×720 the cover placement
has zero offset on both axes and a uniform scale factor of 3/2, and the
viewport rectangle (100,100,200,100) maps to source rectangle
(150,150,300,150). -/
theorem sourceRect_c1 :
    coverPlacement 1920 1080 1280 720 = ⟨1280, 720, 0, 0⟩ ∧
      (1920 : ℚ) / (coverPlacement 1920 1080 1280 720).dw = 3 / 2 ∧
      (1080 : ℚ) / (coverPlacement 1920 1080 1280 720).dh = 3 / 2 ∧
      sourceRect 1920 1080 1280 720 ⟨100, 100, 200, 100⟩ = ⟨150, 150, 300, 150⟩ := by
  have hcond : ¬((1920 : ℚ) / 1080 > 1280 / 720) := by norm_num
  have hp : coverPlacement 1920 1080 1280 720 = ⟨1280, 720, 0, 0⟩ := by
    simp only [coverPlacement]
    rw [if_neg hcond]
    norm_num [Placement.mk.injEq]
  refine ⟨hp, by rw [hp]; norm_num, by rw [hp]; norm_num, ?_⟩
  simp only [sourceRect, hp]
  norm_num [SrcRect.mk.injEq]

theorem setMaskXY_getElem_self (states : List (Option MaskState)) (i : ℕ)
    (x y : ℚ) (s : MaskState) (h : states[i]? = some (some s)) :
    (setMaskXY states i x y)[i]? = some (some { s with x := x, y := y }) := by
  have hi : i < states.length := (List.getElem?_eq_some_iff.mp h).1
  unfold setMaskXY
  rw [h]
  exact List.getElem?_set_self hi

theorem setMaskXY_getElem_ne (states : List (Option MaskState)) (i j : ℕ)
    (x y : ℚ) (hne : j ≠ i) :
    (setMaskXY states i x y)[j]? = states[j]? := by
  unfold setMaskXY
  cases h : states[i]? with
  | none => rfl
  | some o =>
    cases o with
    | none => rfl
    | some s => exact List.getElem?_set_ne (fun he => hne he.symm)

theorem handleMouseDown_maskStates (cx cy : ℚ) (i : ℕ) (st : ComponentState) :
    (handleMouseDown cx cy i st).maskStates = st.maskStates := by
  unfold handleMouseDown
  cases getMaskElem st i <;> cases getMaskState st i <;> rfl

theorem handleMouseMove_active_maskStates (cx cy : ℚ) (i : ℕ)
    (st : ComponentState) (h : st.draggingState.index = some i) :
    (handleMouseMove cx cy i st).maskStates =
      setMaskXY st.maskStates i (cx - st.draggingState.offsetX)
        (cy - st.draggingState.offsetY) := by
  unfold handleMouseMove
  rw [if_pos h]
  cases hg : getMaskElem st i <;> rfl

/-- Claim C3: pointer-down on mask `i` at `(cx, cy)` records
`offset = (cx, cy) − MaskState[i].(x, y)`, and a subsequent pointer-move to
`(mx, my)` on the same mask sets `MaskState[i].(x, y) = (mx, my) − offset`,
keeping the size. -/
theorem mouseDown_then_move_updates_position (st : ComponentState) (i : ℕ)
    (cx cy mx my : ℚ) (m : MaskElem) (s : MaskState)
    (hm : getMaskElem st i = some m) (hs : getMaskState st i = some s) :
    (handleMouseDown cx cy i st).draggingState =
      { index := some i, offsetX := cx - s.x, offsetY := cy - s.y } ∧
    getMaskState (handleMouseMove mx my i (handleMouseDown cx cy i st)) i =
      some { s with x := mx - (cx - s.x), y := my - (cy - s.y) } := by
  have hjoin : st.maskStates[i]? = some (some s) := by
    have := hs
    unfold getMaskState at this
    exact Option.join_eq_some.mp this
  have hdown :
      handleMouseDown cx cy i st =
        { st with
          draggingState :=
            { index := some i, offsetX := cx - s.x, offsetY := cy - s.y }
          masks := st.masks.set i (some { m with cursor := "grabbing" }) } := by
    unfold handleMouseDown
    rw [hm, hs]
  constructor
  · rw [hdown]
  · rw [hdown]
    set st1 :=
      { st with
        draggingState :=
          { index := some i, offsetX := cx - s.x, offsetY := cy - s.y }
        masks := st.masks.set i (some { m with cursor := "grabbing" }) } with hst1
    have hact : st1.draggingState.index = some i := rfl
    have hms :
        (handleMouseMove mx my i st1).maskStates =
          setMaskXY st.maskStates i (mx - (cx - s.x)) (my - (cy - s.y)) :=
      handleMouseMove_active_maskStates mx my i st1 hact
    unfold getMaskState
    rw [hms, setMaskXY_getElem_self st.maskStates i _ _ s hjoin]
    rfl

/-- Claim C4: a pointer-move on mask `i` leaves every other mask's state
untouched: for `j ≠ i`, `maskStates[j]` is unchanged (whether or not a drag
on `i` is active). -/
theorem handleMouseMove_frame (cx cy : ℚ) (i j : ℕ) (st : ComponentState)
    (hne : j ≠ i) :
    (handleMouseMove cx cy i st).maskStates[j]? = st.maskStates[j]? := by
  by_cases h : st.draggingState.index = some i
  · rw [handleMouseMove_active_maskStates cx cy i st h]
    exact setMaskXY_getElem_ne st.maskStates i j _ _ hne
  · unfold handleMouseMove
    rw [if_neg h]

/-- Claim C5: the drag state is a single record whose `index` is `none` or
one mask index, and a pointer-move on mask `i` is a complete no-op unless `i`
is the active drag index. -/
theorem dragState_unique_and_guards_moves (st : ComponentState) (i : ℕ)
    (cx cy : ℚ) (h : st.draggingState.index ≠ some i) :
    (st.draggingState.index = none ∨ ∃ k, st.draggingState.index = some k) ∧
      handleMouseMove cx cy i st = st := by
  constructor
  · cases hk : st.draggingState.index with
    | none => exact Or.inl rfl
    | some k => exact Or.inr ⟨k, rfl⟩
  · unfold handleMouseMove
    rw [if_neg h]

/-- Claim C6: pointer-up always leaves the drag index at `none`, and from any
state whose drag index is `none` a pointer-move on any mask changes nothing. -/
theorem mouseUp_releases_and_idle_moves_noop (st st' : ComponentState)
    (i : ℕ) (cx cy : ℚ) (hidle : st'.draggingState.index = none) :
    (handleMouseUp st).draggingState.index = none ∧
      handleMouseMove cx cy i st' = st' := by
  constructor
  · unfold handleMouseUp
    split
    · split <;> rfl
    · rename_i hk
      exact hk
  · unfold handleMouseMove
    rw [if_neg (by rw [hidle]; exact fun h => Option.noConfusion h)]

theorem handleMouseDown_hud_hover (cx cy : ℚ) (i : ℕ) (st : ComponentState) :
    (handleMouseDown cx cy i st).hud = st.hud ∧
      (handleMouseDown cx cy i st).isHovering = st.isHovering := by
  unfold handleMouseDown
  cases getMaskElem st i <;> cases getMaskState st i <;> exact ⟨rfl, rfl⟩

theorem handleMouseMove_hud_hover (cx cy : ℚ) (i : ℕ) (st : ComponentState) :
    (handleMouseMove cx cy i st).hud = st.hud ∧
      (handleMouseMove cx cy i st).isHovering = st.isHovering := by
  unfold handleMouseMove
  by_cases h : st.draggingState.index = some i
  · rw [if_pos h]
    cases getMaskElem st i <;> exact ⟨rfl, rfl⟩
  · rw [if_neg h]
    exact ⟨rfl, rfl⟩

theorem handleMouseUp_hud_hover (st : ComponentState) :
    (handleMouseUp st).hud = st.hud ∧
      (handleMouseUp st).isHovering = st.isHovering := by
  unfold handleMouseUp
  constructor
  · split
    · split <;> rfl
    · rfl
  · split
    · split <;> rfl
    · rfl

theorem applyFrame_hud_hover (st : ComponentState) :
    (applyFrame st).hud = st.hud ∧ (applyFrame st).isHovering = st.isHovering := by
  unfold applyFrame
  cases st.video <;> exact ⟨rfl, rfl⟩

theorem hudInv_of_eq (st st' : ComponentState) (hh : st'.hud = st.hud)
    (hf : st'.isHovering = st.isHovering) (h : hudInv st) : hudInv st' := by
  intro hudEl he hflag
  exact h hudEl (hh ▸ he) (hf ▸ hflag)

theorem step_preserves_hudInv (st : ComponentState) (e : Event)
    (h : hudInv st) : hudInv (step st e) := by
  cases e with
  | down cx cy i =>
    exact hudInv_of_eq st _ (handleMouseDown_hud_hover cx cy i st).1
      (handleMouseDown_hud_hover cx cy i st).2 h
  | move cx cy i =>
    exact hudInv_of_eq st _ (handleMouseMove_hud_hover cx cy i st).1
      (handleMouseMove_hud_hover cx cy i st).2 h
  | up =>
    exact hudInv_of_eq st _ (handleMouseUp_hud_hover st).1
      (handleMouseUp_hud_hover st).2 h
  | frame =>
    exact hudInv_of_eq st _ (applyFrame_hud_hover st).1
      (applyFrame_hud_hover st).2 h
  | enter =>
    show hudInv (handleMouseEnter st)
    unfold handleMouseEnter
    split
    · rename_i h0 heq
      intro hudEl he hflag
      obtain rfl : ({ h0 with text := "GRAB" } : HudElem) = hudEl :=
        Option.some.inj he
      rfl
    · rename_i heq
      intro hudEl he hflag
      have he' : st.hud = some hudEl := he
      rw [heq] at he'
      exact Option.noConfusion he'
  | leave =>
    show hudInv (handleMouseLeave st)
    unfold handleMouseLeave
    split
    · intro hudEl he hflag
      exact Bool.noConfusion hflag
    · intro hudEl he hflag
      exact Bool.noConfusion hflag
  | globalMove cx cy =>
    show hudInv (handleGlobalMouseMove cx cy st)
    unfold handleGlobalMouseMove
    split
    · exact h
    · rename_i hudEl0 heq
      split
      · rename_i hcond
        intro hudEl he hflag
        obtain rfl : ({ hudEl0 with tx := cx + 2, ty := cy + 2 } : HudElem) = hudEl :=
          Option.some.inj he
        exact h hudEl0 heq hcond
      · rename_i hcond
        intro hudEl he hflag
        exact absurd (show st.isHovering = true from hflag) hcond

/-- Claim C7: entering a mask sets the HUD text to exactly GRAB, leaving sets
it to exactly HOVER; while the hover flag is up a document-wide pointer-move
never changes the HUD text (so along any event run it stays at the literal the
enter handler wrote), and while the flag is down every pointer-move overwrites
the HUD text with the live pointer coordinates. -/
theorem hud_grab_hover_labels :
    (∀ st h0, st.hud = some h0 →
      ((handleMouseEnter st).hud).map HudElem.text = some "GRAB" ∧
        (handleMouseEnter st).isHovering = true) ∧
    (∀ st h0, st.hud = some h0 →
      ((handleMouseLeave st).hud).map HudElem.text = some "HOVER" ∧
        (handleMouseLeave st).isHovering = false) ∧
    (∀ st cx cy, st.isHovering = true →
      ((handleGlobalMouseMove cx cy st).hud).map HudElem.text =
        (st.hud).map HudElem.text) ∧
    (∀ st cx cy h0, st.isHovering = false → st.hud = some h0 →
      ((handleGlobalMouseMove cx cy st).hud).map HudElem.text =
        some (coordTextQ cx cy)) ∧
    (∀ st evs, hudInv st → hudInv (run st evs)) := by
  refine ⟨?_, ?_, ?_, ?_, ?_⟩
  · intro st h0 hh
    simp [handleMouseEnter, hh]
  · intro st h0 hh
    simp [handleMouseLeave, hh]
  · intro st cx cy hhov
    cases hh : st.hud with
    | none => simp [handleGlobalMouseMove, hh]
    | some h0 => simp [handleGlobalMouseMove, hh, hhov]
  · intro st cx cy h0 hflag hh
    simp [handleGlobalMouseMove, hh, hflag]
  · intro st evs h
    induction evs generalizing st with
    | nil => exact h
    | cons e evs ih => exact ih (step st e) (step_preserves_hudInv st e h)

theorem boundingRect_reAnchor (m : MaskElem) :
    boundingRect (reAnchor m) = boundingRect m := by
  simp [boundingRect, reAnchor]

/-- Claim C8: the playback-start initialization is idempotent: a second run,
reading the bounding rectangles the first run's re-anchoring produced, leaves
every MaskState exactly as the first run did. -/
theorem initMasks_idempotent (st : ComponentState) :
    (handlePlaying (handlePlaying st)).maskStates =
      (handlePlaying st).maskStates := by
  show (st.masks.map (Option.map reAnchor)).map (Option.map boundingRect) =
    st.masks.map (Option.map boundingRect)
  rw [List.map_map]
  have hfun :
      (Option.map boundingRect ∘ Option.map reAnchor) =
        (Option.map boundingRect : Option MaskElem → Option MaskState) := by
    funext om
    cases om with
    | none => rfl
    | some m => simp [Function.comp, boundingRect_reAnchor m]
  rw [hfun]

theorem draw_ops_getElem (st : ComponentState) (v : VideoElem) (j : ℕ)
    (hv : st.video = some v) :
    (draw st).ops[j]? =
      if j < st.maskStates.length then some (perMaskDraw st v j) else none := by
  unfold draw
  rw [hv]
  show ((List.range st.maskStates.length).map (perMaskDraw st v))[j]? = _
  rw [List.getElem?_map]
  by_cases hj : j < st.maskStates.length
  · rw [List.getElem?_range hj, if_pos hj]
    rfl
  · rw [if_neg hj, List.getElem?_eq_none]
    · rfl
    · simpa [List.length_range] using Nat.le_of_not_lt hj

theorem perMaskDraw_local (st st' : ComponentState) (v : VideoElem) (j : ℕ)
    (h1 : st.maskStates[j]? = st'.maskStates[j]?)
    (h2 : st.canvases[j]? = st'.canvases[j]?)
    (h3 : st.coordsEls[j]? = st'.coordsEls[j]?)
    (h4 : st.winW = st'.winW) (h5 : st.winH = st'.winH) :
    perMaskDraw st v j = perMaskDraw st' v j := by
  unfold perMaskDraw updateCoordsText getMaskState
  rw [h1, h2, h3, h4, h5]

/-- Claim C9: a missing video makes `draw` do nothing and not reschedule;
with a video present the frame always reschedules, each mask's iteration
depends only on that mask's own state, canvas and label (so one mask's
missing resources never affect another mask's drawing), and a mask whose
canvas is absent is skipped with no other effect. -/
theorem draw_skip_semantics :
    (∀ st, st.video = none →
      draw st = { ops := [], rescheduled := false }) ∧
    (∀ st v, st.video = some v → (draw st).rescheduled = true) ∧
    (∀ (st st' : ComponentState) (v : VideoElem) (j : ℕ),
      st.video = some v → st'.video = some v →
      st.winW = st'.winW → st.winH = st'.winH →
      st.maskStates.length = st'.maskStates.length →
      st.maskStates[j]? = st'.maskStates[j]? →
      st.canvases[j]? = st'.canvases[j]? →
      st.coordsEls[j]? = st'.coordsEls[j]? →
      (draw st).ops[j]? = (draw st').ops[j]?) ∧
    (∀ st v i s, st.video = some v → getMaskState st i = some s →
      (st.canvases[i]?).join = none →
      (draw st).ops[i]? = some none) := by
  refine ⟨?_, ?_, ?_, ?_⟩
  · intro st hv
    unfold draw
    rw [hv]
  · intro st v hv
    unfold draw
    rw [hv]
  · intro st st' v j hv hv' hw hh hlen h1 h2 h3
    rw [draw_ops_getElem st v j hv]
    rw [draw_ops_getElem st' v j hv']
    rw [hlen]
    rw [perMaskDraw_local st st' v j h1 h2 h3 hw hh]
  · intro st v i s hv hs hc
    have hjoin : st.maskStates[i]? = some (some s) := by
      have := hs
      unfold getMaskState at this
      exact Option.join_eq_some.mp this
    have hi : i < st.maskStates.length := (List.getElem?_eq_some_iff.mp hjoin).1
    rw [draw_ops_getElem st v i hv, if_pos hi]
    have : perMaskDraw st v i = none := by
      unfold perMaskDraw
      rw [hs, hc]
    rw [this]

theorem setMaskXY_eq_or_set (states : List (Option MaskState)) (k : ℕ)
    (x y : ℚ) :
    setMaskXY states k x y = states ∨
      ∃ s, states[k]? = some (some s) ∧
        setMaskXY states k x y =
          states.set k (some { s with x := x, y := y }) := by
  unfold setMaskXY
  cases hk : states[k]? with
  | none => exact Or.inl rfl
  | some o =>
    cases o with
    | none => exact Or.inl rfl
    | some s => exact Or.inr ⟨s, rfl, rfl⟩

theorem setMaskXY_WH (states : List (Option MaskState)) (k i : ℕ) (x y : ℚ) :
    ((setMaskXY states k x y)[i]?).join.map MaskState.w =
        (states[i]?).join.map MaskState.w ∧
      ((setMaskXY states k x y)[i]?).join.map MaskState.h =
        (states[i]?).join.map MaskState.h := by
  rcases setMaskXY_eq_or_set states k x y with heq | ⟨s, hk, hset⟩
  · rw [heq]
    exact ⟨rfl, rfl⟩
  · rw [hset]
    by_cases hik : i = k
    · subst hik
      have hi : i < states.length := (List.getElem?_eq_some_iff.mp hk).1
      rw [List.getElem?_set_self hi, hk]
      exact ⟨rfl, rfl⟩
    · rw [List.getElem?_set_ne (fun he => hik he.symm)]
      exact ⟨rfl, rfl⟩

theorem maskWH_congr (st st' : ComponentState)
    (h : st'.maskStates = st.maskStates) (i : ℕ) :
    maskW st' i = maskW st i ∧ maskH st' i = maskH st i := by
  unfold maskW maskH getMaskState
  rw [h]
  exact ⟨rfl, rfl⟩

theorem step_maskWH (st : ComponentState) (e : Event) (i : ℕ) :
    maskW (step st e) i = maskW st i ∧ maskH (step st e) i = maskH st i := by
  cases e with
  | down cx cy k =>
    exact maskWH_congr st (handleMouseDown cx cy k st)
      (handleMouseDown_maskStates cx cy k st) i
  | move cx cy k =>
    by_cases h : st.draggingState.index = some k
    · have hms := handleMouseMove_active_maskStates cx cy k st h
      have hwh :=
        setMaskXY_WH st.maskStates k i (cx - st.draggingState.offsetX)
          (cy - st.draggingState.offsetY)
      constructor
      · show ((handleMouseMove cx cy k st).maskStates[i]?).join.map MaskState.w =
          (st.maskStates[i]?).join.map MaskState.w
        rw [hms]
        exact hwh.1
      · show ((handleMouseMove cx cy k st).maskStates[i]?).join.map MaskState.h =
          (st.maskStates[i]?).join.map MaskState.h
        rw [hms]
        exact hwh.2
    · have hno : handleMouseMove cx cy k st = st := by
        unfold handleMouseMove
        rw [if_neg h]
      show maskW (handleMouseMove cx cy k st) i = maskW st i ∧
        maskH (handleMouseMove cx cy k st) i = maskH st i
      rw [hno]
      exact ⟨rfl, rfl⟩
  | up =>
    refine maskWH_congr st (handleMouseUp st) ?_ i
    unfold handleMouseUp
    split
    · split <;> rfl
    · rfl
  | enter =>
    refine maskWH_congr st (handleMouseEnter st) ?_ i
    unfold handleMouseEnter
    split <;> rfl
  | leave =>
    refine maskWH_congr st (handleMouseLeave st) ?_ i
    unfold handleMouseLeave
    split <;> rfl
  | globalMove cx cy =>
    refine maskWH_congr st (handleGlobalMouseMove cx cy st) ?_ i
    unfold handleGlobalMouseMove
    split
    · rfl
    · split <;> rfl
  | frame =>
    refine maskWH_congr st (applyFrame st) ?_ i
    unfold applyFrame
    split <;> rfl

theorem run_maskWH (evs : List Event) (st : ComponentState) (i : ℕ) :
    maskW (run st evs) i = maskW st i ∧ maskH (run st evs) i = maskH st i := by
  induction evs generalizing st with
  | nil => exact ⟨rfl, rfl⟩
  | cons e evs ih =>
    have h1 := step_maskWH st e i
    have h2 := ih (step st e)
    exact ⟨h2.1.trans h1.1, h2.2.trans h1.2⟩

/-- Claim C10: after the playback-start initialization, every reachable
operation (drags, pointer up, hover enter/leave, HUD moves, render frames)
preserves each mask's recorded width and height at the values measured from
its element's bounding rectangle at initialization. -/
theorem mask_sizes_fixed_after_init (st0 : ComponentState) (evs : List Event)
    (i : ℕ) :
    maskW (run (handlePlaying st0) evs) i =
        ((st0.masks[i]?).join).map MaskElem.w ∧
      maskH (run (handlePlaying st0) evs) i =
        ((st0.masks[i]?).join).map MaskElem.h := by
  have hrun := run_maskWH evs (handlePlaying st0) i
  refine ⟨hrun.1.trans ?_, hrun.2.trans ?_⟩
  · show ((st0.masks.map (Option.map boundingRect))[i]?).join.map MaskState.w = _
    rw [List.getElem?_map]
    cases st0.masks[i]? with
    | none => rfl
    | some om => cases om <;> rfl
  · show ((st0.masks.map (Option.map boundingRect))[i]?).join.map MaskState.h = _
    rw [List.getElem?_map]
    cases st0.masks[i]? with
    | none => rfl
    | some om => cases om <;> rfl

/-- Witness for C3: pointer-down on mask 2 at (50,60) with state (40,45)
records offset (10,15); moving to (80,90) puts the mask at (70,75). -/
theorem mouseDown_then_move_updates_position_witness :
    getMaskElem sampleState 2 = some sampleMask2 ∧
      getMaskState sampleState 2 = some { x := 40, y := 45, w := 200, h := 100 } ∧
      (handleMouseDown 50 60 2 sampleState).draggingState =
        { index := some 2, offsetX := 10, offsetY := 15 } ∧
      getMaskState
          (handleMouseMove 80 90 2 (handleMouseDown 50 60 2 sampleState)) 2 =
        some { x := 70, y := 75, w := 200, h := 100 } := by
  have h := mouseDown_then_move_updates_position sampleState 2 50 60 80 90
    sampleMask2 { x := 40, y := 45, w := 200, h := 100 } rfl rfl
  refine ⟨rfl, rfl, ?_, ?_⟩
  · rw [h.1]
    norm_num [DraggingState.mk.injEq]
  · rw [h.2]
    norm_num [MaskState.mk.injEq]

/-- Witness for C4: moving dragged mask 2 leaves mask 0's state untouched. -/
theorem handleMouseMove_frame_witness :
    (0 : ℕ) ≠ 2 ∧
      (handleMouseMove 7 8 2 sampleState).maskStates[0]? =
        sampleState.maskStates[0]? :=
  ⟨by decide, handleMouseMove_frame 7 8 2 0 sampleState (by decide)⟩

/-- Witness for C5: with no active drag, a move on mask 0 is a no-op. -/
theorem dragState_unique_and_guards_moves_witness :
    sampleState.draggingState.index ≠ some 0 ∧
      ((sampleState.draggingState.index = none ∨
          ∃ k, sampleState.draggingState.index = some k) ∧
        handleMouseMove 3 4 0 sampleState = sampleState) :=
  ⟨by decide, dragState_unique_and_guards_moves sampleState 0 3 4 (by decide)⟩

/-- Witness for C6: pointer-up leaves no active drag; an idle move changes
nothing. -/
theorem mouseUp_releases_and_idle_moves_noop_witness :
    sampleState.draggingState.index = none ∧
      ((handleMouseUp sampleHoverState).draggingState.index = none ∧
        handleMouseMove 3 4 1 sampleState = sampleState) :=
  ⟨rfl, mouseUp_releases_and_idle_moves_noop sampleHoverState sampleState 1 3 4 rfl⟩

/-- Witness for C7 at concrete states: enter writes GRAB, leave writes HOVER,
a move while hovering keeps the text, a move while idle writes coordinates,
and the hovering-text invariant survives an enter event. -/
theorem hud_grab_hover_labels_witness :
    (sampleState.hud = some { text := "HOVER", tx := 0, ty := 0 } ∧
      ((handleMouseEnter sampleState).hud).map HudElem.text = some "GRAB" ∧
        (handleMouseEnter sampleState).isHovering = true) ∧
      (((handleMouseLeave sampleState).hud).map HudElem.text = some "HOVER" ∧
        (handleMouseLeave sampleState).isHovering = false) ∧
      (sampleHoverState.isHovering = true ∧
        ((handleGlobalMouseMove 9 9 sampleHoverState).hud).map HudElem.text =
          (sampleHoverState.hud).map HudElem.text) ∧
      (sampleState.isHovering = false ∧
        ((handleGlobalMouseMove 9 9 sampleState).hud).map HudElem.text =
          some (coordTextQ 9 9)) ∧
      (hudInv sampleState ∧ hudInv (run sampleState [Event.enter])) := by
  have h := hud_grab_hover_labels
  have hinv : hudInv sampleState := by
    intro hudEl he hflag
    exact absurd hflag (by decide)
  exact ⟨⟨rfl, h.1 sampleState { text := "HOVER", tx := 0, ty := 0 } rfl⟩,
    h.2.1 sampleState { text := "HOVER", tx := 0, ty := 0 } rfl,
    ⟨rfl, h.2.2.1 sampleHoverState 9 9 rfl⟩,
    ⟨rfl, h.2.2.2.1 sampleState 9 9 { text := "HOVER", tx := 0, ty := 0 } rfl rfl⟩,
    hinv, h.2.2.2.2 sampleState [Event.enter] hinv⟩

/-- Witness for C9: a missing video draws nothing and does not reschedule;
with the video present the frame reschedules, mask 2's iteration is the same
whether or not mask 0's canvas exists, and mask 0 is skipped when its canvas
is gone. -/
theorem draw_skip_semantics_witness :
    (sampleStateNoVideo.video = none ∧
      draw sampleStateNoVideo = { ops := [], rescheduled := false }) ∧
      (sampleState.video = some { videoWidth := 1920, videoHeight := 1080 } ∧
        (draw sampleState).rescheduled = true) ∧
      (sampleState.maskStates.length = sampleStateNoCanvas.maskStates.length ∧
        (draw sampleState).ops[2]? = (draw sampleStateNoCanvas).ops[2]?) ∧
      ((sampleStateNoCanvas.canvases[0]?).join = none ∧
        (draw sampleStateNoCanvas).ops[0]? = some none) := by
  have h := draw_skip_semantics
  exact ⟨⟨rfl, h.1 sampleStateNoVideo rfl⟩,
    ⟨rfl, h.2.1 sampleState { videoWidth := 1920, videoHeight := 1080 } rfl⟩,
    ⟨rfl, h.2.2.1 sampleState sampleStateNoCanvas
      { videoWidth := 1920, videoHeight := 1080 } 2 rfl rfl rfl rfl rfl rfl rfl rfl⟩,
    ⟨rfl, h.2.2.2 sampleStateNoCanvas { videoWidth := 1920, videoHeight := 1080 } 0
      { x := 5, y := 10, w := 120, h := 60 } rfl rfl rfl⟩⟩
